import Mathlib

/-!
Shallow embedding of `src/multi_agent.py`: a two-tier multi-agent research
script built on pydantic-ai with Tavily web search.

The Python module defines:
* `search_web`   — Tavily provider adapter (reads `TAVILY_API_KEY` from the
  process environment at call time, wraps provider failures);
* `format_search_results` — pure formatter of raw Tavily result dictionaries;
* `search_tool`  — the tool exposed to the worker agent (catches every
  failure and renders it as an error string);
* `Task` / `SubagentTasks` — pydantic data model for subtask batches;
* `run_subagent` — the dispatch tool of the lead agent, fanning the batch
  out with `asyncio.gather` and returning the outputs in batch order.

External effects (the environment, the network, the language-model backend)
are modelled as explicit function parameters; exceptions become `Except`.
-/

namespace MultiAgent

/-- Process environment lookup, as `os.getenv`: `none` models an unset
variable. -/
abbrev Env := String → Option String

/-- One raw Tavily result entry: each field may be absent from the
dictionary (`none` models a missing key). -/
structure SearchEntry where
  title : Option String
  url : Option String
  content : Option String
deriving Repr, DecidableEq

/-- The raw dictionary returned by the Tavily client: an optional
AI-generated `answer` and an optional list of result entries. -/
structure SearchResults where
  answer : Option String
  results : Option (List SearchEntry)
deriving Repr, DecidableEq

/-- The parameters `search_web` forwards to `TavilyClient.search`. -/
structure SearchParams where
  query : String
  max_results : Nat
  include_answer : Bool
  include_raw_content : Bool
  search_depth : String
deriving Repr, DecidableEq

/-- The remote provider, indexed by attempt number: `net k p` is the outcome
of the k-th network call with parameters `p` (`Except.error` models the
client raising, carrying `str(e)`). Indexing by attempt lets us state that
no retry ever consults attempt 1 and beyond. -/
abbrev Net := Nat → SearchParams → Except String SearchResults

/-- The two failure kinds `search_web` can raise: the `ValueError` for a
missing credential and the wrapped `Exception` for a failed provider call. -/
inductive SearchError where
  | configurationError (msg : String)
  | providerError (msg : String)
deriving Repr, DecidableEq

/-- The `str(e)` of the raised exception: its message. -/
def SearchError.message : SearchError → String
  | .configurationError m => m
  | .providerError m => m

/-- The message of the `ValueError` raised when `TAVILY_API_KEY` is unset. -/
def tavilyKeyError : String :=
  "TAVILY_API_KEY environment variable not set. Get your API key from https://app.tavily.com/home"

/-- Python `search_web(query, max_results, include_answer, include_raw_content,
search_depth)`: reads the credential from the environment at call time,
raises `ValueError` if it is unset or empty (Python falsiness), otherwise
performs one provider call and wraps any provider failure in
`Exception("Tavily API request failed: " + str(e))`. -/
def search_web (env : Env) (net : Net) (query : String) (max_results : Nat)
    (include_answer : Bool) (include_raw_content : Bool)
    (search_depth : String) : Except SearchError SearchResults :=
  match env ("TAVILY_API_KEY") with
  | none => .error (.configurationError tavilyKeyError)
  | some api_key =>
    if api_key = "" then
      .error (.configurationError tavilyKeyError)
    else
      match net 0 ⟨query, max_results, include_answer, include_raw_content, search_depth⟩ with
      | .ok response => .ok response
      | .error e => .error (.providerError ("Tavily API request failed: " ++ e))

/-- Python `format_search_results(search_results)`: translated from the Python
loop, which appends the AI-summary block when `answer` is present and
truthy, then appends one source block per entry whose `content` is present
and truthy, substituting `"Unknown Title"`/`"Unknown URL"` via `.get`
defaults for missing keys. -/
def format_search_results (search_results : SearchResults) : List String :=
  let content_list : List String := []
  let content_list :=
    match search_results.answer with
    | some a => if a = "" then content_list else content_list ++ ["AI Summary: " ++ a]
    | none => content_list
  match search_results.results with
  | some results =>
    results.foldl (fun acc result =>
      match result.content with
      | some content =>
        if content = "" then acc
        else
          acc ++ ["Source: " ++ result.title.getD ("Unknown Title") ++ " (" ++
            result.url.getD ("Unknown URL") ++ ")\nContent: " ++ content]
      | none => acc) content_list
  | none => content_list

/-- Python `search_tool(query, max_results=3)`: calls `search_web` with the
defaults `include_answer=False`, `include_raw_content=False`,
`search_depth="basic"`, formats, joins with the fixed separator under the
query header; every exception is caught and rendered as an error string, so
the function always returns a `String` (it is total by type). -/
def search_tool (env : Env) (net : Net) (query : String) (max_results : Nat) : String :=
  match search_web env net query max_results false false ("basic") with
  | .ok search_results =>
    "Web Search Query: " ++ query ++ "\n\n" ++
      String.intercalate ("\n\n---\n\n") (format_search_results search_results)
  | .error e => "Error performing web search: " ++ e.message

/-- Python `class Task(BaseModel)`: a subtask, two plain `str` fields. -/
structure Task where
  description : String
  focus_area : String
deriving Repr, DecidableEq

/-- Python `class SubagentTasks(BaseModel)`: the batch, a plain `List[Task]`. -/
structure SubagentTasks where
  tasks : List Task
deriving Repr, DecidableEq

/-- Pydantic validation of `Task` as declared in the source: both fields
are annotated `str` with no further validator or constraint, so any pair
of (already string-typed) values is accepted. -/
def mkTask (description : String) (focus_area : String) : Except String Task :=
  .ok ⟨description, focus_area⟩

/-- The composite prompt `run_subagent` builds for each task. -/
def workerPrompt (task : Task) : String :=
  "Research Task: " ++ task.description ++ "\nFocus Area: " ++ task.focus_area

/-- The worker agent backend: `research_agent.run prompt` either returns an
output string or raises (`Except.error`, carrying the backend failure). -/
abbrev Worker := String → Except String String

/-- Collect the settled outcomes of a batch in input order, failing on the
first error met (the result-assembly half of `asyncio.gather`). -/
def collectOk : List (Except String String) → Except String (List String)
  | [] => .ok []
  | .ok a :: rest => (collectOk rest).map (fun l => a :: l)
  | .error e :: _ => .error e

/-- The first failure among the batch outcomes in completion order, if
any: `order` lists indices in the order the invocations finished. -/
def firstErrorIn (outcomes : List (Except String String)) (order : List Nat) : Option String :=
  order.findSome? fun i =>
    match outcomes.get? i with
    | some (.error e) => some e
    | _ => none

/-- Semantics of `asyncio.gather` over the settled outcomes of the batch: if any
invocation failed, the whole call raises; otherwise it returns the values
in input order, whatever the completion order was. -/
def gatherInOrder (outcomes : List (Except String String)) (order : List Nat) :
    Except String (List String) :=
  match firstErrorIn outcomes order with
  | some e => .error e
  | none => collectOk outcomes

/-- Python `run_subagent(tasks)`: builds one worker prompt per task (in batch
order), runs all of them under `asyncio.gather`, and returns
`[result.output for result in results]`. `order` is the completion order
of the invocations, irrelevant to the value returned. -/
def run_subagent (worker : Worker) (tasks : SubagentTasks) (order : List Nat) :
    Except String (List String) :=
  gatherInOrder (tasks.tasks.map (fun task => worker (workerPrompt task))) order

/-!
The lead coordinator's orchestration loop. The loop is not Python control
flow: it is executed by the language model following
`lead_agent_instruction`, whose operative lines are "Maximum of 2
follow-up research rounds after initial research to prevent loops" and
"Stop iterating when you have sufficient coverage OR reach the follow-up
limit". The state machine below is modelled from the spec (§4.7) over that
instruction text.
-/

/-- The follow-up cap fixed by `lead_agent_instruction`: at most 2
follow-up research rounds after the initial one. -/
def followUpCap : Nat := 2

/-- Modelled from the spec: the follow-up phase of the coordinator run
(the Evaluate / Dispatch-Round loop of §4.7, realized by the language
model following `lead_agent_instruction`, not by Python control flow).
`evaluate r` is true when the Evaluate step still finds gaps after `r`
rounds; `budget` is the remaining follow-up allowance. Returns the total
number of dispatch rounds executed. -/
def followUpLoop (evaluate : Nat → Bool) : Nat → Nat → Nat
  | 0, roundsDone => roundsDone
  | budget + 1, roundsDone =>
    if evaluate roundsDone then followUpLoop evaluate budget (roundsDone + 1)
    else roundsDone

/-- Modelled from the spec: a full coordinator run — one initial dispatch
round, then the follow-up loop with the fixed cap. Returns the total
number of dispatch rounds executed. -/
def coordinatorRounds (evaluate : Nat → Bool) : Nat :=
  followUpLoop evaluate followUpCap 1

/-!
Fan-out/fan-in schedule of one `run_subagent` call. The Python line
`await asyncio.gather(*[research_agent.run(...) for task in tasks.tasks])`
first constructs every coroutine (the list comprehension), then `gather`
schedules all of them as tasks before the single-threaded event loop
regains control; invocations therefore only complete after all have been
issued, and `gather` resolves once every one of them has completed. The
transition system below embeds exactly those semantics: `issue` steps pop
the pending list, and the guard `toIssue = []` on `complete` steps is the
fact that no scheduled task runs before `gather` has scheduled them all.
-/

/-- An observable event of one dispatch round: invocation `i` being
issued, or invocation `i` completing. -/
inductive DispatchEvent where
  | issue (i : Nat)
  | complete (i : Nat)
deriving Repr, DecidableEq

/-- Recogniser for `DispatchEvent.issue`. -/
def DispatchEvent.isIssue : DispatchEvent → Bool
  | .issue _ => true
  | .complete _ => false

/-- Recogniser for `DispatchEvent.complete`. -/
def DispatchEvent.isComplete : DispatchEvent → Bool
  | .issue _ => false
  | .complete _ => true

/-- State of one dispatch round: invocations not yet issued (in batch
order), invocations in flight, invocations completed (in completion
order). -/
structure DispatchState where
  toIssue : List Nat
  running : List Nat
  done : List Nat
deriving Repr, DecidableEq

/-- One scheduler step of the gather-based dispatch: either the next
pending invocation is issued, or — only once every invocation has been
issued — some in-flight invocation completes (any one: completion order
is the scheduler's choice). -/
inductive DispatchStep : DispatchState → DispatchEvent → DispatchState → Prop where
  | issue (i : Nat) (rest running done : List Nat) :
      DispatchStep ⟨i :: rest, running, done⟩ (.issue i) ⟨rest, i :: running, done⟩
  | complete (i : Nat) (running done : List Nat) (hmem : i ∈ running) :
      DispatchStep ⟨[], running, done⟩ (.complete i) ⟨[], running.erase i, done ++ [i]⟩

/-- A finite run of the dispatch scheduler, recording its event trace. -/
inductive DispatchTrace : DispatchState → List DispatchEvent → DispatchState → Prop where
  | nil (s : DispatchState) : DispatchTrace s [] s
  | cons (s s' s'' : DispatchState) (e : DispatchEvent) (tr : List DispatchEvent)
      (hstep : DispatchStep s e s') (htr : DispatchTrace s' tr s'') :
      DispatchTrace s (e :: tr) s''

/-- The initial state of a dispatch round over a batch of `n` subtasks. -/
def dispatchInit (n : Nat) : DispatchState := ⟨List.range n, [], []⟩

/-- The state in which `asyncio.gather` resolves and `run_subagent`
returns: nothing left to issue and nothing in flight. -/
def dispatchReturned (s : DispatchState) : Prop := s.toIssue = [] ∧ s.running = []

/-!
Spec-side formatter, written from the words of §4.2 of the specification,
for comparison with `format_search_results` (translated from the code).
-/

/-- The block §4.2 prescribes for one provider entry: a source block
exactly when the entry has non-empty content (entries without content
produce no block), with `"Unknown Title"` / `"Unknown URL"` standing in
for missing fields. -/
def specSourceBlock (entry : SearchEntry) : Option String :=
  match entry.content with
  | some content =>
    if content = "" then none
    else
      some ("Source: " ++ entry.title.getD ("Unknown Title") ++ " (" ++
        entry.url.getD ("Unknown URL") ++ ")\nContent: " ++ content)
  | none => none

/-- The formatter as the specification words it: an AI-summary block first
if and only if the answer field is present and non-empty, followed by the
per-source blocks in provider order. -/
def format_spec (sr : SearchResults) : List String :=
  (match sr.answer with
   | some a => if a = "" then [] else ["AI Summary: " ++ a]
   | none => []) ++
  (sr.results.getD []).filterMap specSourceBlock

/-- The Python result loop, which appends one source block per entry with
non-empty content, equals the accumulator followed by `filterMap
specSourceBlock`. -/
theorem formatLoop_eq_filterMap (results : List SearchEntry) (acc : List String) :
    results.foldl (fun acc result =>
      match result.content with
      | some content =>
        if content = "" then acc
        else
          acc ++ ["Source: " ++ result.title.getD ("Unknown Title") ++ " (" ++
            result.url.getD ("Unknown URL") ++ ")\nContent: " ++ content]
      | none => acc) acc = acc ++ results.filterMap specSourceBlock := by
  induction results generalizing acc with
  | nil => simp
  | cons r rest ih =>
    rw [List.foldl_cons, List.filterMap_cons]
    cases hc : r.content with
    | none => simp [specSourceBlock, hc, ih]
    | some c =>
      by_cases hC : c = ""
      · simp [specSourceBlock, hc, hC, ih]
      · simp [specSourceBlock, hc, hC, ih]

/-- C4: `format_search_results` never fails (it is a total function into
`List String`) and returns exactly what §4.2 prescribes: an AI-summary
block first if and only if the answer field is present and non-empty,
then one source block per entry with non-empty content in provider order,
entries without content contributing nothing, with placeholder title and
url for missing fields — i.e. it coincides with the formatter written
from the specification's words. -/
theorem c4_format_refines_spec (sr : SearchResults) :
    format_search_results sr = format_spec sr := by
  obtain ⟨ans, res⟩ := sr
  cases res with
  | none =>
    cases ans with
    | none => simp [format_search_results, format_spec]
    | some a =>
      by_cases hA : a = "" <;>
        simp [format_search_results, format_spec, hA]
  | some results =>
    cases ans with
    | none => simp [format_search_results, format_spec, formatLoop_eq_filterMap]
    | some a =>
      by_cases hA : a = "" <;>
        simp [format_search_results, format_spec, formatLoop_eq_filterMap, hA]

/-- A successful `collectOk` means every outcome was a success, in order. -/
theorem collectOk_eq_ok {xs : List (Except String String)} {l : List String}
    (h : collectOk xs = .ok l) : xs = l.map Except.ok := by
  induction xs generalizing l with
  | nil =>
    simp only [collectOk] at h
    cases h
    rfl
  | cons x rest ih =>
    cases x with
    | error e => simp [collectOk] at h
    | ok a =>
      simp only [collectOk] at h
      cases hr : collectOk rest with
      | error e => rw [hr] at h; simp [Except.map] at h
      | ok l' =>
        rw [hr] at h
        simp only [Except.map] at h
        cases h
        simp [ih hr]

/-- C1: whenever `run_subagent` returns a sequence of findings for a batch
of N subtasks, it returns exactly N findings, and the finding at position
i is the output of the worker invocation built from the subtask at
position i — for every completion order `order`. -/
theorem c1_run_subagent_positional (worker : Worker) (tasks : SubagentTasks)
    (order : List Nat) (findings : List String)
    (h : run_subagent worker tasks order = .ok findings) :
    findings.length = tasks.tasks.length ∧
    ∀ i task, tasks.tasks.get? i = some task →
      ∃ finding, findings.get? i = some finding ∧
        worker (workerPrompt task) = .ok finding := by
  unfold run_subagent gatherInOrder at h
  cases hfe : firstErrorIn (tasks.tasks.map fun task => worker (workerPrompt task)) order with
  | some e => rw [hfe] at h; exact absurd h (by simp)
  | none =>
    rw [hfe] at h
    have hx := collectOk_eq_ok h
    constructor
    · have hlen := congrArg List.length hx
      simp at hlen
      exact hlen.symm
    · intro i task ht
      have h1 : (tasks.tasks.map fun task => worker (workerPrompt task)).get? i
          = some (worker (workerPrompt task)) := by
        rw [List.get?_map, ht]
        rfl
      rw [hx, List.get?_map] at h1
      cases hf : findings.get? i with
      | none => rw [hf] at h1; simp at h1
      | some f =>
        rw [hf] at h1
        simp at h1
        exact ⟨f, rfl, h1.symm⟩

/-- Witness for C1 at a one-task batch and the identity worker. -/
theorem c1_witness :
    run_subagent ((fun p => Except.ok p) : Worker) ⟨[⟨"a", "b"⟩]⟩ [0]
        = Except.ok ["Research Task: a\nFocus Area: b"] ∧
    ((["Research Task: a\nFocus Area: b"] : List String).length
        = (⟨[⟨"a", "b"⟩]⟩ : SubagentTasks).tasks.length ∧
      ∀ i task, (⟨[⟨"a", "b"⟩]⟩ : SubagentTasks).tasks.get? i = some task →
        ∃ finding, (["Research Task: a\nFocus Area: b"] : List String).get? i = some finding ∧
          ((fun p => Except.ok p) : Worker) (workerPrompt task) = Except.ok finding) := by
  have h : run_subagent ((fun p => Except.ok p) : Worker) ⟨[⟨"a", "b"⟩]⟩ [0]
      = Except.ok ["Research Task: a\nFocus Area: b"] := by rfl
  exact ⟨h, c1_run_subagent_positional ((fun p => Except.ok p) : Worker) ⟨[⟨"a", "b"⟩]⟩ [0] _ h⟩

/-- C6: if any single worker invocation of the batch fails, the whole
`run_subagent` call fails — the failure propagates uncaught (there is no
handler in `run_subagent`) and no partial list of findings is returned
(the error outcome carries no findings), whatever the completion order. -/
theorem c6_single_failure_fails_batch (worker : Worker) (tasks : SubagentTasks)
    (order : List Nat) (i : Nat) (task : Task) (e : String)
    (ht : tasks.tasks.get? i = some task)
    (hfail : worker (workerPrompt task) = .error e) :
    ∃ msg, run_subagent worker tasks order = .error msg := by
  unfold run_subagent gatherInOrder
  cases hfe : firstErrorIn (tasks.tasks.map fun task => worker (workerPrompt task)) order with
  | some m => exact ⟨m, rfl⟩
  | none =>
    cases hco : collectOk (tasks.tasks.map fun task => worker (workerPrompt task)) with
    | error m => exact ⟨m, rfl⟩
    | ok l =>
      exfalso
      have hx := collectOk_eq_ok hco
      have h1 : (tasks.tasks.map fun task => worker (workerPrompt task)).get? i
          = some (.error e) := by
        rw [List.get?_map, ht]
        simp [hfail]
      rw [hx, List.get?_map] at h1
      cases hl : l.get? i with
      | none => rw [hl] at h1; simp at h1
      | some f => rw [hl] at h1; simp at h1

/-- Witness for C6 at a one-task batch and an always-failing worker. -/
theorem c6_witness :
    (⟨[⟨"a", "b"⟩]⟩ : SubagentTasks).tasks.get? 0 = some ⟨"a", "b"⟩ ∧
    ((fun _ => Except.error ("backend down")) : Worker) (workerPrompt ⟨"a", "b"⟩)
        = Except.error ("backend down") ∧
    ∃ msg, run_subagent ((fun _ => Except.error ("backend down")) : Worker) ⟨[⟨"a", "b"⟩]⟩ [0]
        = Except.error msg := by
  refine ⟨rfl, rfl, ?_⟩
  exact c6_single_failure_fails_batch ((fun _ => Except.error ("backend down")) : Worker)
    ⟨[⟨"a", "b"⟩]⟩ [0] 0 ⟨"a", "b"⟩ "backend down" rfl rfl

/-- C2: for every query and every failure raised by the search layer —
credential (`configurationError`) and provider (`providerError`) failures
alike — `search_tool` does not raise (it is total by type, returning a
`String` for all inputs) and returns the string
`"Error performing web search: "` followed by the failure's message. -/
theorem c2_search_tool_never_raises (env : Env) (net : Net) (query : String)
    (max_results : Nat) (e : SearchError)
    (h : search_web env net query max_results false false ("basic") = .error e) :
    search_tool env net query max_results = "Error performing web search: " ++ e.message := by
  unfold search_tool
  rw [h]

/-- Witness for C2 on an environment with no credential. -/
theorem c2_witness :
    search_web ((fun _ => none) : Env) ((fun _ _ => Except.error ("net")) : Net)
        "q" 3 false false ("basic")
      = Except.error (.configurationError tavilyKeyError) ∧
    search_tool ((fun _ => none) : Env) ((fun _ _ => Except.error ("net")) : Net) "q" 3
      = "Error performing web search: " ++
          (SearchError.configurationError tavilyKeyError).message := by
  have h : search_web ((fun _ => none) : Env) ((fun _ _ => Except.error ("net")) : Net)
      "q" 3 false false ("basic") = Except.error (.configurationError tavilyKeyError) := rfl
  exact ⟨h, c2_search_tool_never_raises _ _ ("q") 3 _ h⟩

/-- C5: with no usable credential in the environment (variable unset, or
set to the empty string — Python falsiness), `search_web` fails with the
configuration error, and it does so before any network attempt: the
outcome is the same for every possible network behaviour `net`. The
credential is read from the environment passed at call time — the
environment is an argument of the call, not state captured at import. -/
theorem c5_missing_credential (env : Env) (query : String) (max_results : Nat)
    (include_answer include_raw_content : Bool) (search_depth : String)
    (hkey : env ("TAVILY_API_KEY") = none ∨ env ("TAVILY_API_KEY") = some ("")) :
    ∀ net : Net, search_web env net query max_results include_answer
        include_raw_content search_depth
      = .error (.configurationError tavilyKeyError) := by
  intro net
  unfold search_web
  cases hkey with
  | inl h => rw [h]
  | inr h => rw [h]; simp

/-- Witness for C5 on the empty environment. -/
theorem c5_witness :
    (((fun _ => none) : Env) "TAVILY_API_KEY" = none ∨
      ((fun _ => none) : Env) "TAVILY_API_KEY" = some ("")) ∧
    ∀ net : Net, search_web ((fun _ => none) : Env) net ("q") 5 false false ("basic")
      = .error (.configurationError tavilyKeyError) :=
  ⟨Or.inl rfl, c5_missing_credential ((fun _ => none) : Env) "q" 5 false false ("basic")
    (Or.inl rfl)⟩

/-- C9: with a credential present, a failing provider call makes
`search_web` fail with the single stable kind `providerError`, whose
message wraps the underlying cause; and no retry is performed — the
outcome of the call depends only on attempt 0 of the network, so any two
networks agreeing on attempt 0 give the same result. -/
theorem c9_provider_failure_wrapped (env : Env) (net : Net) (query : String)
    (max_results : Nat) (include_answer include_raw_content : Bool)
    (search_depth : String) (key msg : String)
    (hkey : env ("TAVILY_API_KEY") = some key) (hk : key ≠ "")
    (hnet : net 0 ⟨query, max_results, include_answer, include_raw_content, search_depth⟩
      = .error msg) :
    search_web env net query max_results include_answer include_raw_content search_depth
      = .error (.providerError ("Tavily API request failed: " ++ msg)) ∧
    ∀ net' : Net,
      net' 0 ⟨query, max_results, include_answer, include_raw_content, search_depth⟩
        = net 0 ⟨query, max_results, include_answer, include_raw_content, search_depth⟩ →
      search_web env net' query max_results include_answer include_raw_content search_depth
        = search_web env net query max_results include_answer include_raw_content search_depth := by
  constructor
  · unfold search_web
    rw [hkey, hnet]
    simp [hk]
  · intro net' hagree
    unfold search_web
    rw [hkey, hagree]

/-- Witness for C9 on a network whose single attempt times out. -/
theorem c9_witness :
    ((fun v => if v = "TAVILY_API_KEY" then some ("k") else none) : Env) "TAVILY_API_KEY"
        = some ("k") ∧
    ("k" : String) ≠ "" ∧
    ((fun _ _ => Except.error ("timeout")) : Net) 0 ⟨"q", 5, false, false, "basic"⟩
        = Except.error ("timeout") ∧
    search_web ((fun v => if v = "TAVILY_API_KEY" then some ("k") else none) : Env)
        ((fun _ _ => Except.error ("timeout")) : Net) "q" 5 false false ("basic")
      = .error (.providerError ("Tavily API request failed: " ++ "timeout")) := by
  refine ⟨rfl, by decide, rfl, ?_⟩
  exact (c9_provider_failure_wrapped
    ((fun v => if v = "TAVILY_API_KEY" then some ("k") else none) : Env)
    ((fun _ _ => Except.error ("timeout")) : Net) "q" 5 false false ("basic") "k" "timeout"
    rfl (by decide) rfl).1

/-- C10: on the success path, `search_tool query max_results` is exactly
the composition stated in §4.3: `search_web` with `include_answer=false`,
`include_raw_content=false`, `search_depth="basic"`, then
`format_search_results`, then joining the blocks with the fixed separator
`"\n\n---\n\n"` under the header `"Web Search Query: <query>"`. -/
theorem c10_search_tool_success_path (env : Env) (net : Net) (query : String)
    (max_results : Nat) (sr : SearchResults)
    (h : search_web env net query max_results false false ("basic") = .ok sr) :
    search_tool env net query max_results =
      "Web Search Query: " ++ query ++ "\n\n" ++
        String.intercalate ("\n\n---\n\n") (format_search_results sr) := by
  unfold search_tool
  rw [h]

/-- Witness for C10 on a one-entry provider response. -/
theorem c10_witness :
    search_web ((fun _ => some ("k")) : Env)
        ((fun _ _ => Except.ok ⟨none, some [⟨some ("X"), some ("http://x"), some ("c")⟩]⟩) : Net)
        "q" 3 false false ("basic")
      = Except.ok ⟨none, some [⟨some ("X"), some ("http://x"), some ("c")⟩]⟩ ∧
    search_tool ((fun _ => some ("k")) : Env)
        ((fun _ _ => Except.ok ⟨none, some [⟨some ("X"), some ("http://x"), some ("c")⟩]⟩) : Net)
        "q" 3
      = "Web Search Query: " ++ "q" ++ "\n\n" ++
          String.intercalate ("\n\n---\n\n")
            (format_search_results ⟨none, some [⟨some ("X"), some ("http://x"), some ("c")⟩]⟩) := by
  have h : search_web ((fun _ => some ("k")) : Env)
      ((fun _ _ => Except.ok ⟨none, some [⟨some ("X"), some ("http://x"), some ("c")⟩]⟩) : Net)
      "q" 3 false false ("basic")
    = Except.ok ⟨none, some [⟨some ("X"), some ("http://x"), some ("c")⟩]⟩ := by
    unfold search_web
    simp
  exact ⟨h, c10_search_tool_success_path _ _ ("q") 3 _ h⟩

/-- C3: for every coordinator run — in particular one whose Evaluate step
always finds gaps — the total number of dispatch rounds executed is at
most 3 (one initial round plus at most `followUpCap = 2` follow-up
rounds), and the always-gaps run executes exactly 3; the loop is a
structurally recursive function on the remaining budget, so it
terminates. -/
theorem c3_dispatch_rounds_capped :
    (∀ evaluate : Nat → Bool, coordinatorRounds evaluate ≤ 3) ∧
    coordinatorRounds (fun _ => true) = 3 := by
  have hle : ∀ (evaluate : Nat → Bool) (budget roundsDone : Nat),
      followUpLoop evaluate budget roundsDone ≤ roundsDone + budget := by
    intro evaluate budget
    induction budget with
    | zero => intro roundsDone; simp [followUpLoop]
    | succ b ih =>
      intro roundsDone
      unfold followUpLoop
      split
      · have := ih (roundsDone + 1)
        omega
      · omega
  constructor
  · intro evaluate
    have := hle evaluate followUpCap 1
    simpa [coordinatorRounds, followUpCap] using this
  · rfl

/-- From a state with nothing left to issue, every later event of a
dispatch run is a completion: `issue` steps are enabled only while the
pending list is non-empty. -/
theorem trace_completesOnly {s : DispatchState} {tr : List DispatchEvent} {s' : DispatchState}
    (htr : DispatchTrace s tr s') :
    s.toIssue = [] → ∀ e ∈ tr, e.isComplete = true := by
  induction htr with
  | nil => intro _ e he; cases he
  | cons s1 s2 s3 ev rest hstep htr ih =>
    intro h e' he'
    cases hstep with
    | issue i r running done => simp at h
    | complete i running done hmem =>
      cases he' with
      | head => rfl
      | tail _ hm => exact ih rfl e' hm

/-- Every dispatch run splits into a prefix of issue events followed by a
suffix of completion events: all invocations are issued before any is
awaited. -/
theorem trace_split {s : DispatchState} {tr : List DispatchEvent} {s' : DispatchState}
    (htr : DispatchTrace s tr s') :
    ∃ k, (∀ e ∈ tr.take k, e.isIssue = true) ∧ (∀ e ∈ tr.drop k, e.isComplete = true) := by
  induction htr with
  | nil => exact ⟨0, by simp, by simp⟩
  | cons s1 s2 s3 ev rest hstep htr ih =>
    cases hstep with
    | issue i r running done =>
      obtain ⟨k, hk1, hk2⟩ := ih
      refine ⟨k + 1, ?_, ?_⟩
      · intro e he
        rw [List.take_succ_cons] at he
        cases he with
        | head => rfl
        | tail _ hm => exact hk1 e hm
      · intro e he
        rw [List.drop_succ_cons] at he
        exact hk2 e he
    | complete i running done hmem =>
      refine ⟨0, by simp, ?_⟩
      intro e he
      simp only [List.drop_zero] at he
      cases he with
      | head => rfl
      | tail _ hm => exact trace_completesOnly htr rfl e hm

/-- A dispatch run neither loses nor invents invocations: the multiset of
pending, running and completed indices is preserved by every step. -/
theorem trace_perm {s : DispatchState} {tr : List DispatchEvent} {s' : DispatchState}
    (htr : DispatchTrace s tr s') :
    (s'.toIssue ++ s'.running ++ s'.done).Perm (s.toIssue ++ s.running ++ s.done) := by
  induction htr with
  | nil => exact List.Perm.refl _
  | cons s1 s2 s3 ev rest hstep htr ih =>
    refine ih.trans ?_
    cases hstep with
    | issue i r running done =>
      simp only [List.append_assoc, List.cons_append]
      exact List.perm_middle
    | complete i running done hmem =>
      simp only [List.nil_append]
      have h1 := List.perm_cons_erase hmem
      have h2 : ((running.erase i ++ done) ++ [i]).Perm (i :: (running.erase i ++ done)) :=
        List.perm_append_singleton _ _
      have h3 : (i :: (running.erase i ++ done)).Perm (running ++ done) := by
        have h4 := (h1.symm).append_right done
        simpa using h4
      rw [← List.append_assoc]
      exact h2.trans h3

/-- C7: within one dispatch round over a batch of n subtasks, every run of
the gather scheduler that reaches the returning state has a trace that is
a block of issue events followed by a block of completion events (all
invocations are launched before any is awaited), and at the point of
return every one of the n invocations has completed (the completed set is
a permutation of the whole batch) — so no result is available before the
fan-in barrier. -/
theorem c7_fan_out_fan_in (n : Nat) (tr : List DispatchEvent) (final : DispatchState)
    (htr : DispatchTrace (dispatchInit n) tr final) (hret : dispatchReturned final) :
    (∃ k, (∀ e ∈ tr.take k, e.isIssue = true) ∧ (∀ e ∈ tr.drop k, e.isComplete = true)) ∧
    final.done.Perm (List.range n) := by
  refine ⟨trace_split htr, ?_⟩
  have hp := trace_perm htr
  obtain ⟨h1, h2⟩ := hret
  rw [h1, h2] at hp
  simpa [dispatchInit] using hp

/-- Witness for C7: a two-task round completing in reversed order. -/
theorem c7_witness :
    DispatchTrace (dispatchInit 2)
        [DispatchEvent.issue 0, DispatchEvent.issue 1, DispatchEvent.complete 1,
          DispatchEvent.complete 0] ⟨[], [], [1, 0]⟩ ∧
    dispatchReturned ⟨[], [], [1, 0]⟩ ∧
    ((∃ k, (∀ e ∈ ([DispatchEvent.issue 0, DispatchEvent.issue 1, DispatchEvent.complete 1,
          DispatchEvent.complete 0].take k), e.isIssue = true) ∧
        (∀ e ∈ ([DispatchEvent.issue 0, DispatchEvent.issue 1, DispatchEvent.complete 1,
          DispatchEvent.complete 0].drop k), e.isComplete = true)) ∧
      (⟨[], [], [1, 0]⟩ : DispatchState).done.Perm (List.range 2)) := by
  have h1 : DispatchStep (dispatchInit 2) (.issue 0) ⟨[1], [0], []⟩ :=
    DispatchStep.issue 0 [1] [] []
  have h2 : DispatchStep ⟨[1], [0], []⟩ (.issue 1) ⟨[], [1, 0], []⟩ :=
    DispatchStep.issue 1 [] [0] []
  have h3 : DispatchStep ⟨[], [1, 0], []⟩ (.complete 1) ⟨[], [0], [1]⟩ :=
    DispatchStep.complete 1 [1, 0] [] (by decide)
  have h4 : DispatchStep ⟨[], [0], [1]⟩ (.complete 0) ⟨[], [], [1, 0]⟩ :=
    DispatchStep.complete 0 [0] [1] (by decide)
  have htr : DispatchTrace (dispatchInit 2)
      [DispatchEvent.issue 0, DispatchEvent.issue 1, DispatchEvent.complete 1,
        DispatchEvent.complete 0] ⟨[], [], [1, 0]⟩ :=
    DispatchTrace.cons _ _ _ _ _ h1
      (DispatchTrace.cons _ _ _ _ _ h2
        (DispatchTrace.cons _ _ _ _ _ h3
          (DispatchTrace.cons _ _ _ _ _ h4 (DispatchTrace.nil _))))
  exact ⟨htr, ⟨rfl, rfl⟩, c7_fan_out_fan_in 2 _ _ htr ⟨rfl, rfl⟩⟩

/-- C8 counterexample: constructing a `Task` from two empty strings
succeeds — the source declares both fields as plain `str` with no
non-emptiness validator — and dispatching the empty batch is not
rejected: `run_subagent` on it returns the empty findings list rather
than failing. This refutes the claim that construction requires
non-empty strings and that an empty batch is rejected before dispatch. -/
theorem c8_counterexample :
    mkTask ("") "" = Except.ok ⟨"", ""⟩ ∧
    run_subagent ((fun _ => Except.ok ("out")) : Worker) ⟨[]⟩ [] = Except.ok [] :=
  ⟨rfl, rfl⟩

/-- C8 amended: `Task` construction accepts every pair of strings,
including empty ones, and an empty `SubagentTasks` batch is not rejected:
`run_subagent` on it dispatches no worker and returns the empty sequence
of findings, for every worker backend and completion order. -/
theorem c8_amended :
    (∀ description focus_area : String,
      mkTask description focus_area = Except.ok ⟨description, focus_area⟩) ∧
    (∀ (worker : Worker) (order : List Nat),
      run_subagent worker ⟨[]⟩ order = Except.ok []) := by
  constructor
  · intro d f
    rfl
  · intro worker order
    have hfe : firstErrorIn [] order = none := by
      induction order with
      | nil => rfl
      | cons i rest ih =>
        unfold firstErrorIn at ih ⊢
        rw [List.findSome?_cons]
        simp only [List.get?_nil]
        exact ih
    unfold run_subagent gatherInOrder
    simp only [List.map_nil, hfe]
    rfl

end MultiAgent
